import Mathlib

/-!
Verification development for the `bio2bel` repository (namespace manager
mixins and the BioGRID / IntAct interaction-mapping scripts).

The embedding below is a shallow model of the Python sources:

* `src/bio2bel/manager/namespace_manager.py` (`BELNamespaceManagerMixin`):
  the abstract subclass hooks `_get_identifier` and
  `_create_namespace_entry_from_model` become function parameters
  (`gid : Model → String`, `ce : Model → Option NamespaceEntry`); the
  SQLAlchemy session state relevant to the claims is the single persisted
  `Namespace` row (keyed by its url) together with its attached entries,
  modelled as `Option Namespace` where the `entries` field is the
  relationship collection.  The model collection (`_iterate_namespace_models`)
  is a `List Model` parameter; population (`is_populated` / `populate`) is
  not modelled since every claim starts from a populated collection.
* `src/bio2bel/namespacemanagermixin.py` (`NamespaceManagerMixin`): its
  older `_update_namespace` is embedded separately (suffix `_v0`); there the
  entry-construction hook has no `Optional` contract and the loop performs
  no name check.
* `src/bio2bel/sources/biogrid.py` and `src/bio2bel/sources/intact.py`:
  each `_add_my_row` is embedded as a pure function from a row to the list
  of graph-mutation calls it issues, in order.  A call records the relation
  kind, the two entities, and the citation / evidence arguments exactly as
  the source passes them: a proper publication-id citation, the literal
  Python `...` (Ellipsis) placeholder, or no citation argument at all
  (the BioGRID association branch spells the keyword `citaion`, so the
  `citation` parameter never receives a value; the co-expressed branch
  passes neither citation nor evidence).  The external
  `protmapper.uniprot_client.get_mnemonic` lookup is a function parameter.
  Annotation payloads (the fixed `cell_line` block) and the
  `object_modifier=activity()` argument carry no claim content and are not
  recorded on the call.
-/

namespace Bio2bel

/-- A persisted `pybel.manager.models.NamespaceEntry`: an identifier and an
optional name (`entry.name is None` in Python is `name = none`). -/
structure NamespaceEntry where
  identifier : String
  name : Option String
deriving DecidableEq, Repr

/-- A persisted `pybel.manager.models.Namespace` row together with its
`entries` relationship collection. -/
structure Namespace where
  name : String
  keyword : String
  url : String
  version : String
  entries : List NamespaceEntry
deriving DecidableEq, Repr

/-- The (name, keyword, url) identity under which the manager creates its
reference namespace (`_get_namespace_name` / `_get_namespace_keyword` /
`_get_namespace_url`). -/
structure NamespaceConfig where
  name : String
  keyword : String
  url : String
deriving DecidableEq, Repr

/-- `BELNamespaceManagerMixin._get_namespace_entries`: build one entry per
model via `_create_namespace_entry_from_model` and keep those that are not
`None` (the list comprehension filters only on `namespace_entry is not None`;
it performs no name check). -/
def _get_namespace_entries {Model : Type} (ce : Model → Option NamespaceEntry)
    (models : List Model) : List NamespaceEntry :=
  models.filterMap ce

/-- `BELNamespaceManagerMixin._make_namespace`: create the `Namespace` row,
attach all entries produced by `_get_namespace_entries`, and commit. -/
def _make_namespace {Model : Type} (ce : Model → Option NamespaceEntry)
    (cfg : NamespaceConfig) (ver : String) (models : List Model) : Namespace :=
  { name := cfg.name
    keyword := cfg.keyword
    url := cfg.url
    version := ver
    entries := _get_namespace_entries ce models }

/-- `BELNamespaceManagerMixin._get_old_entry_identifiers`: the set
`\x7bterm.identifier for term in namespace.entries\x7d`, modelled as the list of
identifiers (membership is all the loop uses). -/
def _get_old_entry_identifiers (ns : Namespace) : List String :=
  ns.entries.map (fun term => term.identifier)

/-- One iteration of the loop in
`BELNamespaceManagerMixin._update_namespace`: skip models whose identifier is
already present; build the entry; count it as skipped when it is `None` or
nameless; otherwise add it to the session and count it as new.  The
accumulator is (namespace with entries added so far, new_count, skip_count). -/
def updateStep {Model : Type} (gid : Model → String)
    (ce : Model → Option NamespaceEntry) (oldIds : List String)
    (acc : Namespace × Nat × Nat) (model : Model) : Namespace × Nat × Nat :=
  if gid model ∈ oldIds then
    acc
  else
    match ce model with
    | none => (acc.1, acc.2.1, acc.2.2 + 1)
    | some entry =>
      if entry.name = none then
        (acc.1, acc.2.1, acc.2.2 + 1)
      else
        ({ acc.1 with entries := acc.1.entries ++ [entry] }, acc.2.1 + 1, acc.2.2)

/-- `BELNamespaceManagerMixin._update_namespace`: compute the old identifier
set once, then run the loop over the model collection.  Returns the updated
namespace and the reported `(new_count, skip_count)`. -/
def _update_namespace {Model : Type} (gid : Model → String)
    (ce : Model → Option NamespaceEntry) (ns : Namespace)
    (models : List Model) : Namespace × Nat × Nat :=
  models.foldl (updateStep gid ce (_get_old_entry_identifiers ns)) (ns, 0, 0)

/-- `BELNamespaceManagerMixin.upload_bel_namespace`: fetch the namespace by
url; if absent run `_make_namespace`; if present and `update` run
`_update_namespace`; otherwise return it unchanged.  The store argument is
the persisted namespace row (with its entries), the result the returned
namespace. -/
def upload_bel_namespace {Model : Type} (gid : Model → String)
    (ce : Model → Option NamespaceEntry) (cfg : NamespaceConfig) (ver : String)
    (models : List Model) (update : Bool) (store : Option Namespace) : Namespace :=
  match store with
  | none => _make_namespace ce cfg ver models
  | some ns => if update then (_update_namespace gid ce ns models).1 else ns

/-- The persisted store after `upload_bel_namespace` returns: the returned
namespace is the one now persisted (creation adds it, update mutates it in
place, the no-update branch leaves it untouched). -/
def upload_post_store {Model : Type} (gid : Model → String)
    (ce : Model → Option NamespaceEntry) (cfg : NamespaceConfig) (ver : String)
    (models : List Model) (update : Bool) (store : Option Namespace) : Option Namespace :=
  some (upload_bel_namespace gid ce cfg ver models update store)

/-- `NamespaceManagerMixin._update_namespace` from
`namespacemanagermixin.py`: same skip-if-present loop, but the
entry-construction hook is not `Optional` and there is no name check; every
non-skipped model's entry is added and counted. -/
def _update_namespace_v0 {Model : Type} (gid : Model → String)
    (ce : Model → NamespaceEntry) (ns : Namespace)
    (models : List Model) : Namespace × Nat :=
  models.foldl
    (fun acc model =>
      if gid model ∈ _get_old_entry_identifiers ns then
        acc
      else
        ({ acc.1 with entries := acc.1.entries ++ [ce model] }, acc.2 + 1))
    (ns, 0)

/-- The entries persisted in a store (empty when no namespace row exists). -/
def storeEntries : Option Namespace → List NamespaceEntry
  | none => []
  | some ns => ns.entries

/-- `BELNamespaceManagerMixin.drop_bel_namespace`: when a namespace exists,
delete each of its entries, delete the row, commit, and return the deleted
namespace; otherwise fall through and return `None`.  The result is
(post store, returned value). -/
def drop_bel_namespace (store : Option Namespace) : Option Namespace × Option Namespace :=
  match store with
  | none => (none, none)
  | some ns => (none, some ns)

/-- A `pybel.dsl` entity as built by the row processors: a `Protein`, a
protein carrying a `ProteinModification` variant (`with_variants`), or an
`Rna`; each holds its namespace, identifier and name arguments. -/
inductive Entity
  | protein (ns ident nm : String)
  | proteinMod (ns ident nm mod : String)
  | rna (ns ident nm : String)
deriving DecidableEq, Repr

/-- `target.with_variants(pybel.dsl.ProteinModification(mod))`; the sources
only ever apply it to a `Protein`, so the other constructors pass through. -/
def with_variants (mod : String) : Entity → Entity
  | .protein ns ident nm => .proteinMod ns ident nm mod
  | e => e

/-- The value handed to a graph call in the position of the citation: a
publication identifier, or the literal Python `...` (Ellipsis) placeholder
left in several branches. -/
inductive CitationArg
  | pubmed (s : String)
  | ellipsis
deriving DecidableEq, Repr

/-- The kind of graph-mutation helper invoked: `add_increases`,
`add_decreases`, `add_association` or `add_correlation`. -/
inductive EdgeKind
  | increases
  | decreases
  | association
  | correlation
deriving DecidableEq, Repr

/-- One edge-insertion call, recording the arguments exactly as passed:
`citation = none` means the call passes no `citation` argument at all;
`citaion` records the value of the misspelled keyword in the BioGRID
association branch (its value never reaches the `citation` parameter). -/
structure EdgeCall where
  kind : EdgeKind
  source : Entity
  target : Entity
  citation : Option CitationArg
  citaion : Option String := none
  evidence : Option String
deriving DecidableEq, Repr

/-- The fixed `EVIDENCE` constant of `biogrid.py`. -/
def EVIDENCE : String := "From BioGRID"

/-- Relationship types in BioGRID that map to BEL relation `increases`. -/
def BIOGRID_INCREASES_ACTIONS : List String :=
  [ "synthetic genetic interaction defined by inequality"
  , "additive genetic interaction defined by inequality" ]

/-- Relationship types in BioGRID that map to BEL relation `decreases`. -/
def BIOGRID_DECREASES_ACTIONS : List String :=
  [ "suppressive genetic interaction defined by inequality" ]

/-- Relationship types in BioGRID that map to BEL relation `association`. -/
def BIOGRID_ASSOCIATION_ACTIONS : List String :=
  [ "direct interaction"
  , "physical association"
  , "colocalization"
  , "association" ]

/-- The literal interaction-type strings tested by the special-case chain
shared (textually duplicated) by `biogrid._add_my_row` and
`intact._add_my_row`. -/
def SPECIAL_CASE_LABELS : List String :=
  ["deubiquitination", "ubiqutination", "degratation", "activates", "co-expressed"]

/-- Accumulator pass for `splitOnChar`: the current piece is collected in
reverse. -/
def splitOnCharAux (sep : Char) : List Char → List Char → List String
  | [], acc => [String.mk acc.reverse]
  | c :: cs, acc =>
    if c = sep then String.mk acc.reverse :: splitOnCharAux sep cs []
    else splitOnCharAux sep cs (c :: acc)

/-- Python `str.split` with a one-character separator (the
`pubmed_ids.split` of `intact._add_my_row`), modelled structurally over the
character list so that it evaluates by reduction. -/
def splitOnChar (sep : Char) (s : String) : List String :=
  splitOnCharAux sep s.toList []

/-- One raw interaction row as the processors read it: source identifier,
target identifier, interaction-type label, and the raw publication-id field
(a separator-delimited string). -/
structure InteractionRow where
  source : String
  target : String
  relation : String
  pubmed_ids : String
deriving DecidableEq, Repr

/-- The special-case `if relation == ...` chain appearing verbatim in both
`biogrid._add_my_row` (after the action-set chain) and `intact._add_my_row`
(as its whole body), evaluated for one iterated publication element.
Branches record the arguments as the source passes them: the
`ubiqutination` and `degratation` branches pass `citation=...` (Ellipsis);
the `activates` branch passes a bare `...` in the argument position before
`object_modifier` and no evidence; the `co-expressed` branch calls
`add_correlation` on `Rna` entities with only an annotation block, so no
citation and no evidence. -/
def _special_case_calls (mnemonic : String → String)
    (source_uniprot_id target_uniprot_id : String) (source target : Entity)
    (relation : String) (pubmed_id : String) : List EdgeCall :=
  if relation = "deubiquitination" then
    [ { kind := .decreases, source := source
      , target := with_variants "Ub" target
      , citation := some (.pubmed pubmed_id), evidence := some "From intact" } ]
  else if relation = "ubiqutination" then
    [ { kind := .increases, source := source
      , target := with_variants "Ub" target
      , citation := some .ellipsis, evidence := some "From intact" } ]
  else if relation = "degratation" then
    [ { kind := .decreases, source := source, target := target
      , citation := some .ellipsis, evidence := some "From intact" } ]
  else if relation = "activates" then
    [ { kind := .increases, source := source, target := target
      , citation := some .ellipsis, evidence := none } ]
  else if relation = "co-expressed" then
    [ { kind := .correlation
      , source := .rna "uniprot" source_uniprot_id (mnemonic source_uniprot_id)
      , target := .rna "uniprot" target_uniprot_id (mnemonic target_uniprot_id)
      , citation := none, evidence := none } ]
  else []

/-- The action-set `if/elif` chain of `biogrid._add_my_row`, evaluated for
one iterated publication element.  The association branch spells its
citation keyword `citaion`, so the `citation` parameter receives no value
there and the misspelled keyword's value is recorded separately. -/
def _biogrid_action_calls (source target : Entity)
    (relation : String) (pubmed_id : String) : List EdgeCall :=
  if relation ∈ BIOGRID_INCREASES_ACTIONS then
    [ { kind := .increases, source := source, target := target
      , citation := some (.pubmed pubmed_id), evidence := some EVIDENCE } ]
  else if relation ∈ BIOGRID_DECREASES_ACTIONS then
    [ { kind := .decreases, source := source, target := target
      , citation := some (.pubmed pubmed_id), evidence := some EVIDENCE } ]
  else if relation ∈ BIOGRID_ASSOCIATION_ACTIONS then
    [ { kind := .association, source := source, target := target
      , citation := none, citaion := some pubmed_id, evidence := some EVIDENCE } ]
  else []

/-- Everything `biogrid._add_my_row` emits for one iterated publication
element: the action-set chain followed by the special-case chain (the
latter opens with a fresh `if`, so both chains run). -/
def _biogrid_calls_for_pubmed (mnemonic : String → String)
    (source_uniprot_id target_uniprot_id relation pubmed_id : String) : List EdgeCall :=
  _biogrid_action_calls
      (.protein "uniprot" source_uniprot_id (mnemonic source_uniprot_id))
      (.protein "uniprot" target_uniprot_id (mnemonic target_uniprot_id))
      relation pubmed_id
    ++ _special_case_calls mnemonic source_uniprot_id target_uniprot_id
      (.protein "uniprot" source_uniprot_id (mnemonic source_uniprot_id))
      (.protein "uniprot" target_uniprot_id (mnemonic target_uniprot_id))
      relation pubmed_id

/-- `biogrid._add_my_row`: the `pubmed_ids.split` call is commented out in
the source, so `for pubmed_id in pubmed_ids` iterates the characters of the
raw publication-id string; each iterated element is the corresponding
one-character string. -/
def _add_my_row_biogrid (mnemonic : String → String)
    (row : InteractionRow) : List EdgeCall :=
  (row.pubmed_ids.toList).flatMap fun c =>
    _biogrid_calls_for_pubmed mnemonic row.source row.target row.relation (String.mk [c])

/-- `intact._add_my_row`: splits the publication-id field on the bar
separator and runs only the special-case chain for each publication id (the
`INTACT2BEL_MAPPER` tables are never consulted by this function). -/
def _add_my_row_intact (mnemonic : String → String)
    (row : InteractionRow) : List EdgeCall :=
  (splitOnChar '|' row.pubmed_ids).flatMap fun pubmed_id =>
    _special_case_calls mnemonic row.source row.target
      (.protein "uniprot" row.source (mnemonic row.source))
      (.protein "uniprot" row.target (mnemonic row.target))
      row.relation pubmed_id

/-- The `INTACT2BEL_MAPPER` table of `intact.py`: interaction-type label to
BEL relation name. -/
def INTACT2BEL_MAPPER : List (String × String) :=
  [ ("phosphorylation reaction", "increases")
  , ("sumoylation reaction", "increases")
  , ("methylation reaction", "increases")
  , ("transglutamination reaction", "increases")
  , ("ubiquitination reaction", "increases")
  , ("acetylation reaction", "increases")
  , ("adp ribosylation reaction", "increases")
  , ("neddylation reaction", "increases")
  , ("hydroxylation reaction", "increases")
  , ("phosphotransfer reaction", "increases")
  , ("glycosylation reaction", "increases")
  , ("palmitoylation reaction", "increases")
  , ("deubiquitination reaction", "decreases")
  , ("protein cleavage", "decreases")
  , ("cleavage reaction", "decreases")
  , ("deacetylation reaction", "decreases")
  , ("lipoprotein cleavage reaction", "decreases")
  , ("dna cleavage", "decreases")
  , ("rna cleavage", "decreases")
  , ("dephosphorylation reaction", "decreases")
  , ("physical association", "association")
  , ("association", "association")
  , ("colocalization", "association")
  , ("direct interaction", "association")
  , ("enzymatic reaction", "association")
  , ("atpase reaction", "association")
  , ("self interaction", "association")
  , ("gtpase reaction", "association")
  , ("putative self interaction", "association")
  , ("covalent binding", "hasComponent")
  , ("disulfide bond", "hasComponent") ]

/-- The `INTACT2BEL_FUNCTION_MAPPER` table of `intact.py`, restricted to the
entries the claims mention (the ubiquitination row). -/
def INTACT2BEL_FUNCTION_MAPPER : List (String × String) :=
  [ ("covalent binding", "complexAbundance")
  , ("deubiquitination reaction", "proteinModification(Ub)")
  , ("phosphorylation reaction", "proteinModification(Ph)")
  , ("ubiquitination reaction", "proteinModification(Ub)") ]

/-- The closed relation-category enumeration of the spec. -/
inductive RelationCategory
  | increases
  | decreases
  | association
  | hasComponent
  | unrecognized
deriving DecidableEq, Repr

/-- Classification as the BioGRID dispatch chain performs it: membership in
the three action sets in order, anything else unrecognized. -/
def classify (label : String) : RelationCategory :=
  if label ∈ BIOGRID_INCREASES_ACTIONS then .increases
  else if label ∈ BIOGRID_DECREASES_ACTIONS then .decreases
  else if label ∈ BIOGRID_ASSOCIATION_ACTIONS then .association
  else .unrecognized

/-- Classification as the `INTACT2BEL_MAPPER` table encodes it: a lookup,
with labels outside the table (or mapped to an unknown relation name)
unrecognized. -/
def classify_intact (label : String) : RelationCategory :=
  match INTACT2BEL_MAPPER.lookup label with
  | some "increases" => .increases
  | some "decreases" => .decreases
  | some "association" => .association
  | some "hasComponent" => .hasComponent
  | _ => .unrecognized

/-- Declarative description of the models the update loop adds: the
identifier is not among the pre-existing entry identifiers and the derived
entry exists and has a name. -/
def isNewlyAdded {Model : Type} (gid : Model → String)
    (ce : Model → Option NamespaceEntry) (oldIds : List String) (m : Model) : Bool :=
  !(decide (gid m ∈ oldIds)) &&
    (match ce m with
     | some entry => entry.name.isSome
     | none => false)

/-- Declarative description of the models the update loop counts as skipped:
the identifier is new but the derived entry is `None` or nameless. -/
def isSkippedForName {Model : Type} (gid : Model → String)
    (ce : Model → Option NamespaceEntry) (oldIds : List String) (m : Model) : Bool :=
  !(decide (gid m ∈ oldIds)) &&
    (match ce m with
     | some entry => entry.name.isNone
     | none => true)

lemma updateStep_foldl_spec {Model : Type} (gid : Model → String)
    (ce : Model → Option NamespaceEntry) (oldIds : List String)
    (models : List Model) (cur : Namespace) (n k : Nat) :
    models.foldl (updateStep gid ce oldIds) (cur, n, k) =
      ({ cur with entries :=
          cur.entries ++ (models.filter (isNewlyAdded gid ce oldIds)).filterMap ce },
       n + (models.filter (isNewlyAdded gid ce oldIds)).length,
       k + (models.filter (isSkippedForName gid ce oldIds)).length) := by
  induction models generalizing cur n k with
  | nil => simp
  | cons m ms ih =>
    simp only [List.foldl_cons, List.filter_cons]
    by_cases hmem : gid m ∈ oldIds
    · rw [ih]
      simp [updateStep, isNewlyAdded, isSkippedForName, hmem]
    · cases hce : ce m with
      | none =>
        rw [show updateStep gid ce oldIds (cur, n, k) m = (cur, n, k + 1) by
          simp [updateStep, hmem, hce]]
        rw [ih]
        simp [isNewlyAdded, isSkippedForName, hmem, hce, Nat.add_assoc, Nat.add_comm 1]
      | some entry =>
        cases hname : entry.name with
        | none =>
          rw [show updateStep gid ce oldIds (cur, n, k) m = (cur, n, k + 1) by
            simp [updateStep, hmem, hce, hname]]
          rw [ih]
          simp [isNewlyAdded, isSkippedForName, hmem, hce, hname,
            Nat.add_assoc, Nat.add_comm 1]
        | some nm =>
          rw [show updateStep gid ce oldIds (cur, n, k) m =
              ({ cur with entries := cur.entries ++ [entry] }, n + 1, k) by
            simp [updateStep, hmem, hce, hname]]
          rw [ih]
          simp [isNewlyAdded, isSkippedForName, hmem, hce, hname,
            Nat.add_assoc, Nat.add_comm 1]

/-- C1: with a `Namespace` already persisted by a first successful creation,
a second `upload_bel_namespace` call with `update=False` returns that same
`Namespace` and leaves the persisted row and entry set exactly as the first
call left them, regardless of the model collection it sees. -/
theorem upload_noupdate_idempotent {Model : Type} (gid : Model → String)
    (ce : Model → Option NamespaceEntry) (cfg : NamespaceConfig) (ver : String)
    (models models2 : List Model) (u : Bool) :
    upload_bel_namespace gid ce cfg ver models2 false
        (upload_post_store gid ce cfg ver models u none)
      = upload_bel_namespace gid ce cfg ver models u none
    ∧ upload_post_store gid ce cfg ver models2 false
        (upload_post_store gid ce cfg ver models u none)
      = upload_post_store gid ce cfg ver models u none
    ∧ (upload_bel_namespace gid ce cfg ver models2 false
        (upload_post_store gid ce cfg ver models u none)).entries
      = (upload_bel_namespace gid ce cfg ver models u none).entries :=
  ⟨rfl, rfl, rfl⟩

/-- C2: `upload_bel_namespace` with `update=True` on an existing `Namespace`
never removes an entry: the old entry list is an initial segment of the new
one, so the entry count can only grow; likewise for the older
`NamespaceManagerMixin._update_namespace`. -/
theorem upload_update_monotone {Model : Type} (gid : Model → String)
    (ce : Model → Option NamespaceEntry) (ce0 : Model → NamespaceEntry)
    (cfg : NamespaceConfig) (ver : String) (models : List Model) (ns : Namespace) :
    (∃ added, (upload_bel_namespace gid ce cfg ver models true (some ns)).entries
        = ns.entries ++ added)
    ∧ ns.entries.length
        ≤ (upload_bel_namespace gid ce cfg ver models true (some ns)).entries.length
    ∧ (∃ added0, (_update_namespace_v0 gid ce0 ns models).1.entries
        = ns.entries ++ added0)
    ∧ ns.entries.length ≤ (_update_namespace_v0 gid ce0 ns models).1.entries.length := by
  have h1 : (upload_bel_namespace gid ce cfg ver models true (some ns)).entries
      = ns.entries ++ (models.filter
          (isNewlyAdded gid ce (_get_old_entry_identifiers ns))).filterMap ce := by
    show (_update_namespace gid ce ns models).1.entries = _
    unfold _update_namespace
    rw [updateStep_foldl_spec]
  have h0 : ∀ (ms : List Model) (cur : Namespace) (c : Nat),
      ∃ added0, (ms.foldl
        (fun acc model =>
          if gid model ∈ _get_old_entry_identifiers ns then acc
          else ({ acc.1 with entries := acc.1.entries ++ [ce0 model] }, acc.2 + 1))
        (cur, c)).1.entries = cur.entries ++ added0 := by
    intro ms
    induction ms with
    | nil => intro cur c; exact ⟨[], by simp⟩
    | cons m ms ih =>
      intro cur c
      simp only [List.foldl_cons]
      by_cases hmem : gid m ∈ _get_old_entry_identifiers ns
      · simpa [hmem] using ih cur c
      · obtain ⟨t, ht⟩ := ih { cur with entries := cur.entries ++ [ce0 m] } (c + 1)
        refine ⟨ce0 m :: t, ?_⟩
        simp only [hmem, if_false]
        rw [ht]
        simp
  obtain ⟨added0, hadded0⟩ := h0 models ns 0
  refine ⟨⟨_, h1⟩, ?_, ⟨added0, hadded0⟩, ?_⟩
  · rw [h1]; simp
  · show ns.entries.length ≤ (models.foldl _ (ns, 0)).1.entries.length
    rw [hadded0]; simp

/-- C3 counterexample: a record whose derived entry is non-null but nameless
is persisted by the full-creation pass (the creation-path comprehension
filters only `None` entries), contradicting the claim that nameless records
produce zero persisted entries. -/
theorem creation_keeps_nameless_counterexample :
    (fun _ : Unit => some { identifier := "7", name := none : NamespaceEntry }) ()
        = some { identifier := "7", name := none }
    ∧ (_make_namespace (fun _ : Unit => some { identifier := "7", name := none })
        { name := "N", keyword := "K", url := "U" } "v" [()]).entries
      = [{ identifier := "7", name := none }]
    ∧ (_make_namespace (fun _ : Unit => some { identifier := "7", name := none })
        { name := "N", keyword := "K", url := "U" } "v" [()]).entries ≠ [] :=
  ⟨rfl, rfl, by decide⟩

/-- C3 amended: after a full first-time creation pass, each Identifier
Record whose derived entry is non-null (named or nameless) contributes
exactly one persisted `Namespace` entry and each record whose derived entry
is null contributes none: the persisted entry count equals the count of
records with a non-null derived entry, and the persisted entries are exactly
the derived entries of the source records. -/
theorem creation_coverage_amended {Model : Type} (ce : Model → Option NamespaceEntry)
    (cfg : NamespaceConfig) (ver : String) (models : List Model) :
    (_make_namespace ce cfg ver models).entries.length
        = (models.filter (fun m => (ce m).isSome)).length
    ∧ ∀ e, e ∈ (_make_namespace ce cfg ver models).entries
        ↔ ∃ m, m ∈ models ∧ ce m = some e := by
  constructor
  · show (models.filterMap ce).length = _
    induction models with
    | nil => simp
    | cons m ms ih =>
      cases hce : ce m <;> simp [List.filterMap_cons, hce, ih]
  · intro e
    show e ∈ models.filterMap ce ↔ _
    simp [List.mem_filterMap]

/-- C4: in the update branch, an entry is persisted exactly for the models
whose identifier is absent from the pre-existing entry identifiers and whose
derived entry exists and has a name; null or nameless derivations among the
new identifiers are skipped, and the reported counters equal the number
added and the number skipped. -/
theorem update_branch_delta_and_counts {Model : Type} (gid : Model → String)
    (ce : Model → Option NamespaceEntry) (ns : Namespace) (models : List Model) :
    (_update_namespace gid ce ns models).1.entries
        = ns.entries ++ (models.filter
            (isNewlyAdded gid ce (_get_old_entry_identifiers ns))).filterMap ce
    ∧ (_update_namespace gid ce ns models).2.1
        = (models.filter (isNewlyAdded gid ce (_get_old_entry_identifiers ns))).length
    ∧ (_update_namespace gid ce ns models).2.2
        = (models.filter (isSkippedForName gid ce (_get_old_entry_identifiers ns))).length := by
  unfold _update_namespace
  rw [updateStep_foldl_spec]
  simp

/-- C9: `drop_bel_namespace` on a store holding a `Namespace` leaves a store
with no namespace row and no persisted entries and returns the deleted
namespace descriptor; on an empty store it returns nothing and changes
nothing. -/
theorem drop_deletes_entries_then_namespace (ns : Namespace) :
    drop_bel_namespace (some ns) = (none, some ns)
    ∧ storeEntries (drop_bel_namespace (some ns)).1 = []
    ∧ drop_bel_namespace none = (none, none) :=
  ⟨rfl, rfl, rfl⟩

/-- C5 (code bug evaluation): the row processors emit edges whose citation
is the Python `...` placeholder rather than a publication identifier
(`intact` row with label `ubiqutination`), and edges carrying neither a
citation nor an evidence argument (`biogrid` row with label `co-expressed`),
contradicting the citation-and-evidence invariant. -/
theorem row_processors_emit_citationless_edges :
    _add_my_row_intact (fun _ => "MN")
        { source := "P1", target := "P2", relation := "ubiqutination", pubmed_ids := "111" }
      = [ { kind := .increases
          , source := .protein "uniprot" "P1" "MN"
          , target := .proteinMod "uniprot" "P2" "MN" "Ub"
          , citation := some .ellipsis, evidence := some "From intact" } ]
    ∧ _add_my_row_biogrid (fun _ => "MN")
        { source := "P1", target := "P2", relation := "co-expressed", pubmed_ids := "1" }
      = [ { kind := .correlation
          , source := .rna "uniprot" "P1" "MN"
          , target := .rna "uniprot" "P2" "MN"
          , citation := none, evidence := none } ] :=
  ⟨rfl, rfl⟩

/-- C6 (code bug evaluation): for a BioGRID row with label in the
association action set and raw publication field `11|22`, the processor
iterates the characters of the unsplit field, producing five association
calls instead of two, and because the citation keyword is misspelled
`citaion` none of them receives a citation; the publication value lands in
the stray misspelled keyword, one character at a time. -/
theorem biogrid_association_char_iteration_eval :
    ((_add_my_row_biogrid (fun _ => "MN")
        { source := "P1", target := "P2"
        , relation := "physical association", pubmed_ids := "11|22" }).map
      (fun c => (c.kind, c.citation, c.citaion, c.evidence)))
      = [ (.association, none, some "1", some "From BioGRID")
        , (.association, none, some "1", some "From BioGRID")
        , (.association, none, some "|", some "From BioGRID")
        , (.association, none, some "2", some "From BioGRID")
        , (.association, none, some "2", some "From BioGRID") ] :=
  rfl

/-- C7 (code bug evaluation): the module's own tables map
`ubiquitination reaction` to `increases` with a ubiquitination
protein-modification tag, yet `intact._add_my_row` never consults them and
its literal special-case chain does not match this label, so the scenario
row emits zero edges instead of the expected single increases edge. -/
theorem intact_ubiquitination_scenario_eval :
    INTACT2BEL_MAPPER.lookup "ubiquitination reaction" = some "increases"
    ∧ INTACT2BEL_FUNCTION_MAPPER.lookup "ubiquitination reaction"
        = some "proteinModification(Ub)"
    ∧ _add_my_row_intact (fun _ => "MN")
        { source := "P1", target := "P2"
        , relation := "ubiquitination reaction", pubmed_ids := "111" }
      = [] :=
  ⟨rfl, rfl, rfl⟩

/-- C8: classification is total — for any label both classifiers land in the
closed category enumeration — and a label outside every action set and every
special-case literal makes both row processors emit zero edges (no branch
matches, nothing is raised, the loop falls through). -/
theorem classify_total_unknown_label_zero_edges (label : String)
    (mn : String → String) (src tgt pubs : String)
    (h1 : label ∉ BIOGRID_INCREASES_ACTIONS)
    (h2 : label ∉ BIOGRID_DECREASES_ACTIONS)
    (h3 : label ∉ BIOGRID_ASSOCIATION_ACTIONS)
    (h4 : label ∉ SPECIAL_CASE_LABELS) :
    (classify label = .increases ∨ classify label = .decreases
      ∨ classify label = .association ∨ classify label = .hasComponent
      ∨ classify label = .unrecognized)
    ∧ (classify_intact label = .increases ∨ classify_intact label = .decreases
      ∨ classify_intact label = .association ∨ classify_intact label = .hasComponent
      ∨ classify_intact label = .unrecognized)
    ∧ classify label = .unrecognized
    ∧ _add_my_row_biogrid mn
        { source := src, target := tgt, relation := label, pubmed_ids := pubs } = []
    ∧ _add_my_row_intact mn
        { source := src, target := tgt, relation := label, pubmed_ids := pubs } = [] := by
  simp only [SPECIAL_CASE_LABELS, List.mem_cons, List.not_mem_nil, or_false, not_or] at h4
  obtain ⟨hd, hu, hg, ha, hc⟩ := h4
  have hclassify : classify label = .unrecognized := by
    unfold classify
    rw [if_neg h1, if_neg h2, if_neg h3]
  have hspecial : ∀ (mn : String → String) (sid tid : String) (s t : Entity) (p : String),
      _special_case_calls mn sid tid s t label p = [] := by
    intro mn sid tid s t p
    unfold _special_case_calls
    rw [if_neg hd, if_neg hu, if_neg hg, if_neg ha, if_neg hc]
  have haction : ∀ (s t : Entity) (p : String),
      _biogrid_action_calls s t label p = [] := by
    intro s t p
    unfold _biogrid_action_calls
    rw [if_neg h1, if_neg h2, if_neg h3]
  have hintact : classify_intact label = .increases ∨ classify_intact label = .decreases
      ∨ classify_intact label = .association ∨ classify_intact label = .hasComponent
      ∨ classify_intact label = .unrecognized := by
    cases h : classify_intact label <;> simp [h]
  refine ⟨Or.inr (Or.inr (Or.inr (Or.inr hclassify))), hintact, hclassify, ?_, ?_⟩
  · unfold _add_my_row_biogrid _biogrid_calls_for_pubmed
    simp [haction, hspecial]
  · unfold _add_my_row_intact
    simp [hspecial]

/-- C8 witness: the label `not-a-real-type` is outside every action set and
special-case literal, and a row carrying it yields zero edges from both
processors. -/
theorem unknown_label_zero_edges_witness :
    _add_my_row_biogrid (fun _ => "MN")
        { source := "s", target := "t", relation := "not-a-real-type", pubmed_ids := "1" } = []
    ∧ _add_my_row_intact (fun _ => "MN")
        { source := "s", target := "t", relation := "not-a-real-type", pubmed_ids := "1" } = [] := by
  have h := classify_total_unknown_label_zero_edges "not-a-real-type"
    (fun _ => "MN") "s" "t" "1" (by decide) (by decide) (by decide) (by decide)
  exact ⟨h.2.2.2.1, h.2.2.2.2⟩

lemma biogrid_action_calls_length_le_one (s t : Entity) (relation p : String) :
    (_biogrid_action_calls s t relation p).length ≤ 1 := by
  unfold _biogrid_action_calls
  split
  · simp
  split
  · simp
  split
  · simp
  · simp

lemma special_case_calls_length_le_one (mn : String → String) (sid tid : String)
    (s t : Entity) (relation p : String) :
    (_special_case_calls mn sid tid s t relation p).length ≤ 1 := by
  unfold _special_case_calls
  split
  · simp
  split
  · simp
  split
  · simp
  split
  · simp
  split
  · simp
  · simp

lemma biogrid_chains_exclusive (mn : String → String) (sid tid : String)
    (s t : Entity) (relation p : String)
    (h : _biogrid_action_calls s t relation p ≠ []) :
    _special_case_calls mn sid tid s t relation p = [] := by
  have hmem : relation ∈ BIOGRID_INCREASES_ACTIONS
      ∨ relation ∈ BIOGRID_DECREASES_ACTIONS
      ∨ relation ∈ BIOGRID_ASSOCIATION_ACTIONS := by
    by_contra hc
    push_neg at hc
    obtain ⟨h1, h2, h3⟩ := hc
    exact h (by unfold _biogrid_action_calls; rw [if_neg h1, if_neg h2, if_neg h3])
  have hlit : relation ∉ SPECIAL_CASE_LABELS := by
    have hall : ∀ r ∈ BIOGRID_INCREASES_ACTIONS ++ BIOGRID_DECREASES_ACTIONS
        ++ BIOGRID_ASSOCIATION_ACTIONS, r ∉ SPECIAL_CASE_LABELS := by decide
    apply hall
    simp only [List.mem_append]
    tauto
  simp only [SPECIAL_CASE_LABELS, List.mem_cons, List.not_mem_nil, or_false,
    not_or] at hlit
  obtain ⟨hd, hu, hg, ha, hc⟩ := hlit
  unfold _special_case_calls
  rw [if_neg hd, if_neg hu, if_neg hg, if_neg ha, if_neg hc]

/-- C10: the three BioGRID action sets are pairwise disjoint, no
special-case literal belongs to any of them, and consequently the processor
makes at most one edge-insertion call per iterated publication element. -/
theorem biogrid_at_most_one_call_per_element (mn : String → String)
    (sid tid relation pubmed_id : String) :
    (∀ a ∈ BIOGRID_INCREASES_ACTIONS, a ∉ BIOGRID_DECREASES_ACTIONS)
    ∧ (∀ a ∈ BIOGRID_INCREASES_ACTIONS, a ∉ BIOGRID_ASSOCIATION_ACTIONS)
    ∧ (∀ a ∈ BIOGRID_DECREASES_ACTIONS, a ∉ BIOGRID_ASSOCIATION_ACTIONS)
    ∧ (∀ a ∈ SPECIAL_CASE_LABELS, a ∉ BIOGRID_INCREASES_ACTIONS
        ∧ a ∉ BIOGRID_DECREASES_ACTIONS ∧ a ∉ BIOGRID_ASSOCIATION_ACTIONS)
    ∧ (_biogrid_calls_for_pubmed mn sid tid relation pubmed_id).length ≤ 1 := by
  refine ⟨by decide, by decide, by decide, by decide, ?_⟩
  unfold _biogrid_calls_for_pubmed
  rw [List.length_append]
  by_cases ha : _biogrid_action_calls
      (.protein "uniprot" sid (mn sid)) (.protein "uniprot" tid (mn tid))
      relation pubmed_id = []
  · rw [ha]
    simpa using special_case_calls_length_le_one mn sid tid _ _ relation pubmed_id
  · rw [biogrid_chains_exclusive mn sid tid _ _ relation pubmed_id ha]
    simpa using biogrid_action_calls_length_le_one
      (.protein "uniprot" sid (mn sid)) (.protein "uniprot" tid (mn tid))
      relation pubmed_id

end Bio2bel
